import Mathlib

/-
  Shallow embedding of the PTY terminal emulator (src/terminal_emulator.cpp,
  class TerminalEmulator).  Bytes are modelled as `Nat` (the C++ code only
  compares input characters against non-negative constants, so the signed
  `char` representation is immaterial).  Writes performed through `safeWrite`
  are collected in an `Output` record instead of being issued to file
  descriptors; `safeWrite` and `kill` are modelled as succeeding (the code
  ignores `safeWrite` results in `processInput`, and the claims do not
  concern syscall failure).
-/

/-- Byte value as read from the terminal. -/
abbrev Byte := Nat

/-- POSIX signal number for SIGINT. -/
def SIGINT : Int := 2

/-- POSIX signal number for SIGTSTP. -/
def SIGTSTP : Int := 20

/-- POSIX signal number for SIGTERM. -/
def SIGTERM : Int := 15

/-- POSIX signal number for SIGKILL. -/
def SIGKILL : Int := 9

/-- Mutable session state of `TerminalEmulator`: the members `input_buffer_`,
`history_`, `history_index_`, `is_running_`, `child_pid_`, and the
function-local `static std::string escape_sequence` of `processInput`
(which persists across calls, hence is state). -/
structure EmState where
  input_buffer : List Byte
  history : List (List Byte)
  history_index : Nat
  escape_sequence : List Byte
  is_running : Bool
  child_pid : Int
  deriving Repr, DecidableEq

/-- Bytes written to the PTY master (`master_fd_`, i.e. to the child shell),
bytes written to the local terminal (`STDOUT_FILENO`), and signals delivered
to the child via `kill`, in order. -/
structure Output where
  toChild : List Byte
  toStdout : List Byte
  signals : List Int
  deriving Repr, DecidableEq

/-- No I/O performed. -/
def Output.empty : Output := ⟨[], [], []⟩

/-- Sequential composition of two I/O effect records. -/
def Output.app (a b : Output) : Output :=
  ⟨a.toChild ++ b.toChild, a.toStdout ++ b.toStdout, a.signals ++ b.signals⟩

/-- The bytes of the literal string "exit" compared against `input_buffer_`
in `handleEnter`. -/
def exitBytes : List Byte := [101, 120, 105, 116]

/-- `clearLine`: writes `"\r\x1B[K"` to stdout. -/
def clearLineOut : List Byte := [13, 27, 91, 75]

/-- The prompt string `"$ "` written by `displayHistoryEntry`. -/
def promptOut : List Byte := [36, 32]

/-- `TerminalEmulator::sendSignalToChild`.  A tracked child (`child_pid_ > 0`)
receives the signal via `kill` (modelled as succeeding); for SIGINT, SIGTERM
and SIGKILL the child is then reaped (`waitpid`), `child_pid_` is reset to -1
and `is_running_` is set to false.  Returns the C++ function's return value. -/
def sendSignalToChild (st : EmState) (sig : Int) : Bool × EmState × Output :=
  if st.child_pid ≤ 0 then (true, st, Output.empty)
  else if sig = SIGINT ∨ sig = SIGTERM ∨ sig = SIGKILL then
    (true, { st with child_pid := -1, is_running := false }, ⟨[], [], [sig]⟩)
  else
    (true, st, ⟨[], [], [sig]⟩)

/-- `TerminalEmulator::handleBackspace`: no-op on an empty line buffer,
otherwise drops the last character, echoes `"\b \b"` locally and forwards a
single backspace byte to the child. -/
def handleBackspace (st : EmState) : Bool × EmState × Output :=
  if st.input_buffer = [] then (true, st, Output.empty)
  else
    (true, { st with input_buffer := st.input_buffer.dropLast },
     ⟨[8], [8, 32, 8], []⟩)

/-- `TerminalEmulator::displayHistoryEntry`: clears the line, prints the
prompt, sets `input_buffer_` to `history_[history_index_]` when the index is
in range (empty otherwise), and prints that content.  All writes go to
stdout only. -/
def displayHistoryEntry (st : EmState) : EmState × Output :=
  ({ st with input_buffer := st.history.getD st.history_index [] },
   ⟨[], clearLineOut ++ promptOut ++ st.history.getD st.history_index [], []⟩)

/-- `TerminalEmulator::handleArrowKey`: up arrow (final byte `A` = 65)
decrements `history_index_` when positive; down arrow (`B` = 66) increments
it when `history_index_ + 1 < history_.size()`, otherwise snaps it to
`history_.size()` and clears the buffer; both redisplay. -/
def handleArrowKey (st : EmState) (c : Byte) : EmState × Output :=
  if c = 65 ∧ st.history_index > 0 then
    displayHistoryEntry { st with history_index := st.history_index - 1 }
  else if c = 66 then
    if st.history_index + 1 < st.history.length then
      displayHistoryEntry { st with history_index := st.history_index + 1 }
    else
      displayHistoryEntry
        { st with history_index := st.history.length, input_buffer := [] }
  else (st, Output.empty)

/-- `TerminalEmulator::handleEscapeSequence`.  An ESC byte (27) restarts the
accumulator.  Otherwise, with a non-empty accumulator the byte is appended;
a 2-byte result whose second byte is not a left bracket (91) is written to the
PTY master and the accumulator cleared; a 3-byte result is dispatched to
`handleArrowKey` on its final byte, written to the PTY master, and the
accumulator cleared; in the remaining case (second byte is the left bracket)
the function returns false with the appended byte retained, exactly as the
C++ code falls through to `return false`. -/
def handleEscapeSequence (st : EmState) (c : Byte) : Bool × EmState × Output :=
  if c = 27 then
    (true, { st with escape_sequence := [27] }, Output.empty)
  else if st.escape_sequence ≠ [] then
    if (st.escape_sequence ++ [c]).length = 2 ∧ c ≠ 91 then
      (true, { st with escape_sequence := [] },
       ⟨st.escape_sequence ++ [c], [], []⟩)
    else if (st.escape_sequence ++ [c]).length = 3 then
      ((true : Bool),
       { (handleArrowKey { st with escape_sequence := st.escape_sequence ++ [c] }
            ((st.escape_sequence ++ [c]).getD 2 0)).1 with escape_sequence := [] },
       Output.app
         (handleArrowKey { st with escape_sequence := st.escape_sequence ++ [c] }
            ((st.escape_sequence ++ [c]).getD 2 0)).2
         ⟨st.escape_sequence ++ [c], [], []⟩)
    else
      (false, { st with escape_sequence := st.escape_sequence ++ [c] },
       Output.empty)
  else (false, st, Output.empty)

/-- `TerminalEmulator::handleEnter`: a line buffer equal to "exit" stops the
session and returns false with no I/O; otherwise a non-empty buffer is pushed
onto `history_` and `history_index_` becomes the new size; the buffer is
cleared and a newline is written to the PTY master and to stdout. -/
def handleEnter (st : EmState) : Bool × EmState × Output :=
  if st.input_buffer = exitBytes then
    (false, { st with is_running := false }, Output.empty)
  else if st.input_buffer ≠ [] then
    (true,
     { st with
       history := st.history ++ [st.input_buffer],
       history_index := st.history.length + 1,
       input_buffer := [] },
     ⟨[10], [10], []⟩)
  else
    (true, { st with input_buffer := [] }, ⟨[10], [10], []⟩)

/-- `TerminalEmulator::processInput`: per-byte dispatch in the source's
order of precedence — Ctrl-C (3), Ctrl-Z (26), Ctrl-D (4, forwarded then
stops), backspace (127), escape-sequence handling, enter (13 or 10), and the
default case which appends the byte to the line buffer, echoes it and
forwards it. -/
def processInput (st : EmState) (c : Byte) : Bool × EmState × Output :=
  if c = 3 then sendSignalToChild st SIGINT
  else if c = 26 then sendSignalToChild st SIGTSTP
  else if c = 4 then
    (false, { st with is_running := false }, ⟨[4], [], []⟩)
  else if c = 127 then handleBackspace st
  else if (handleEscapeSequence st c).1 then
    (true, (handleEscapeSequence st c).2.1, (handleEscapeSequence st c).2.2)
  else if c = 13 ∨ c = 10 then
    ((handleEnter (handleEscapeSequence st c).2.1).1,
     (handleEnter (handleEscapeSequence st c).2.1).2.1,
     Output.app (handleEscapeSequence st c).2.2
       (handleEnter (handleEscapeSequence st c).2.1).2.2)
  else
    (true,
     { (handleEscapeSequence st c).2.1 with
        input_buffer := (handleEscapeSequence st c).2.1.input_buffer ++ [c] },
     Output.app (handleEscapeSequence st c).2.2 ⟨[c], [c], []⟩)

/-- The per-chunk loop of `TerminalEmulator::readUserInput`: processes the
bytes of one `read` in order, breaking (and setting `is_running_ = false`)
as soon as `processInput` returns false. -/
def processBytes : EmState → List Byte → EmState × Output
  | st, [] => (st, Output.empty)
  | st, c :: rest =>
    if (processInput st c).1 then
      ((processBytes (processInput st c).2.1 rest).1,
       Output.app (processInput st c).2.2
         (processBytes (processInput st c).2.1 rest).2)
    else
      ({ (processInput st c).2.1 with is_running := false },
       (processInput st c).2.2)

/-- Result of one `read(STDIN_FILENO, ...)`: `eofOrErr` models a return value
that is zero or negative, `chunk` a positive return with the bytes read. -/
inductive ReadResult where
  | eofOrErr
  | chunk (bytes : List Byte)
  deriving Repr, DecidableEq

/-- `TerminalEmulator::readUserInput`: a zero-or-negative `read` result makes
the function return immediately (no state change, no I/O); otherwise the
bytes are processed one by one. -/
def readUserInput (st : EmState) (r : ReadResult) : EmState × Output :=
  match r with
  | .eofOrErr => (st, Output.empty)
  | .chunk bytes => processBytes st bytes

/-- The `while (is_running_)` loop of `TerminalEmulator::processIO`,
restricted to stdin-readiness wakeups (PTY output wakeups copy bytes to
stdout and never touch the session state).  Each list element is the read
result of one wakeup; the loop stops when `is_running_` becomes false. -/
def ioLoop : EmState → List ReadResult → EmState × Output
  | st, [] => (st, Output.empty)
  | st, r :: rest =>
    if st.is_running then
      ((ioLoop (readUserInput st r).1 rest).1,
       Output.app (readUserInput st r).2 (ioLoop (readUserInput st r).1 rest).2)
    else (st, Output.empty)

/-- `TerminalEmulator::processIO` sets `is_running_ = true` and runs the
wakeup loop. -/
def runSession (st : EmState) (events : List ReadResult) : EmState × Output :=
  ioLoop { st with is_running := true } events

/-- `TerminalEmulator::cleanup`: closes the master descriptor, signals and
reaps the child, and calls `restoreTerminal` unconditionally, exactly once.
The `Nat` component counts the calls to `restoreTerminal`. -/
def cleanup (st : EmState) : EmState × Nat :=
  ({ st with child_pid := -1 }, 1)

/-- Syscall outcomes during startup, and the session's stdin wakeups. -/
structure Env where
  tcgetattr_ok : Bool
  tcsetattr_ok : Bool
  forkpty_ok : Bool
  child_pid : Int
  events : List ReadResult
  deriving Repr, DecidableEq

/-- Observable outcome of one whole process run: whether raw mode was
successfully entered (`tcsetattr` on the raw settings succeeded), how many
times `restoreTerminal` was called before process exit, and the exit code. -/
structure MainResult where
  raw_mode_entered : Bool
  restore_calls : Nat
  exit_code : Nat
  deriving Repr, DecidableEq

/-- State of the emulator right after a successful constructor run. -/
def initState (pid : Int) : EmState :=
  { input_buffer := [], history := [], history_index := 0,
    escape_sequence := [], is_running := false, child_pid := pid }

/-- `main`: constructs a `TerminalEmulator` and calls `run`.  The constructor
runs `configureTerminal` (throws if `tcgetattr` or `tcsetattr` fails; raw
mode is entered exactly when `tcsetattr` succeeds), `setupSignalHandlers`,
then `initializePty` (throws if `forkpty` fails).  Per C++ semantics an
exception from the constructor propagates without running the destructor,
so `cleanup` — and with it `restoreTerminal` — is skipped on that path and
`main` returns 1.  On a fully successful construction, `run` executes the
I/O loop and the destructor then runs `cleanup` once. -/
def mainModel (env : Env) : MainResult :=
  if env.tcgetattr_ok = false then ⟨false, 0, 1⟩
  else if env.tcsetattr_ok = false then ⟨false, 0, 1⟩
  else if env.forkpty_ok = false then ⟨true, 0, 1⟩
  else
    ⟨true, (cleanup (runSession (initState env.child_pid) env.events).1).2, 0⟩

/-- The escape accumulator values reachable by `processInput`: empty, a lone
ESC, or ESC followed by a left bracket. -/
def escOk (s : List Byte) : Prop := s = [] ∨ s = [27] ∨ s = [27, 91]

/-- Concrete session state used to exhibit the Ctrl-C behaviour: a running
session with a tracked child and a partially typed line. -/
def c1State : EmState :=
  { input_buffer := [108, 115], history := [], history_index := 0,
    escape_sequence := [], is_running := true, child_pid := 100 }

/-- Environment in which raw mode is entered and `forkpty` then fails. -/
def c2Env : Env :=
  { tcgetattr_ok := true, tcsetattr_ok := true, forkpty_ok := false,
    child_pid := -1, events := [] }

/-- Concrete state whose escape accumulator holds a single ESC byte. -/
def c3State : EmState :=
  { input_buffer := [], history := [], history_index := 0,
    escape_sequence := [27], is_running := true, child_pid := 100 }

/-- Concrete running state used for the end-of-stream wakeup. -/
def c4State : EmState :=
  { input_buffer := [], history := [], history_index := 0,
    escape_sequence := [], is_running := true, child_pid := 100 }

/-- Concrete state about to complete an `ESC [ A` sequence, with one history
entry available for recall. -/
def c5State : EmState :=
  { input_buffer := [], history := [[112, 119, 100]], history_index := 1,
    escape_sequence := [27, 91], is_running := true, child_pid := 100 }

/-- Concrete state with a non-empty, non-"exit" line buffer. -/
def c7State : EmState :=
  { input_buffer := [104, 105], history := [[108, 115]], history_index := 1,
    escape_sequence := [], is_running := true, child_pid := 100 }

/-- Concrete state whose line buffer holds exactly "exit". -/
def c8State : EmState :=
  { input_buffer := exitBytes, history := [[108, 115]], history_index := 1,
    escape_sequence := [], is_running := true, child_pid := 100 }

/-- Concrete state with two history entries and the cursor at the sentinel
position (not recalling). -/
def c6State : EmState :=
  { input_buffer := [], history := [[108, 115], [112, 119, 100]],
    history_index := 2, escape_sequence := [], is_running := true,
    child_pid := 100 }

/-- Concrete state whose escape accumulator holds `ESC [`. -/
def c9State : EmState :=
  { input_buffer := [], history := [[108, 115]], history_index := 1,
    escape_sequence := [27, 91], is_running := true, child_pid := 100 }

/-- Concrete state with an empty escape accumulator and a typed character. -/
def c10State : EmState :=
  { input_buffer := [97], history := [], history_index := 0,
    escape_sequence := [], is_running := true, child_pid := 100 }

/-- Appending the empty effect record on the left is the identity. -/
theorem Output.empty_app (o : Output) : Output.app Output.empty o = o := by
  simp [Output.app, Output.empty]

/-- Appending the empty effect record on the right is the identity. -/
theorem Output.app_empty (o : Output) : Output.app o Output.empty = o := by
  simp [Output.app, Output.empty]

/-- With an empty accumulator a non-ESC byte leaves `handleEscapeSequence`
as a no-op returning false. -/
theorem hes_empty_acc (st : EmState) (c : Byte)
    (h : st.escape_sequence = []) (hc : c ≠ 27) :
    handleEscapeSequence st c = (false, st, Output.empty) := by
  unfold handleEscapeSequence
  simp [h, hc]

/-- When `handleEscapeSequence` returns false, the only field it may have
changed is the escape accumulator, and it performed no I/O. -/
theorem hes_false_frame (st : EmState) (c : Byte)
    (h : (handleEscapeSequence st c).1 = false) :
    (handleEscapeSequence st c).2.1.input_buffer = st.input_buffer ∧
    (handleEscapeSequence st c).2.1.history = st.history ∧
    (handleEscapeSequence st c).2.1.history_index = st.history_index ∧
    (handleEscapeSequence st c).2.1.is_running = st.is_running ∧
    (handleEscapeSequence st c).2.1.child_pid = st.child_pid ∧
    (handleEscapeSequence st c).2.2 = Output.empty := by
  unfold handleEscapeSequence at h ⊢
  split_ifs at h ⊢ <;> simp_all

/-- `handleArrowKey` never writes to the PTY master. -/
theorem handleArrowKey_toChild (st : EmState) (c : Byte) :
    (handleArrowKey st c).2.toChild = [] := by
  unfold handleArrowKey displayHistoryEntry
  split_ifs <;> simp [Output.empty]

/-- `handleArrowKey` never sends a signal. -/
theorem handleArrowKey_signals (st : EmState) (c : Byte) :
    (handleArrowKey st c).2.signals = [] := by
  unfold handleArrowKey displayHistoryEntry
  split_ifs <;> simp [Output.empty]

/-- `handleArrowKey` touches only `history_index_` and `input_buffer_`. -/
theorem handleArrowKey_frame (st : EmState) (c : Byte) :
    (handleArrowKey st c).1.history = st.history ∧
    (handleArrowKey st c).1.escape_sequence = st.escape_sequence ∧
    (handleArrowKey st c).1.is_running = st.is_running ∧
    (handleArrowKey st c).1.child_pid = st.child_pid := by
  unfold handleArrowKey displayHistoryEntry
  split_ifs <;> simp

/-- `handleArrowKey` keeps the recall cursor within the history length. -/
theorem handleArrowKey_index_le (st : EmState) (c : Byte)
    (h : st.history_index ≤ st.history.length) :
    (handleArrowKey st c).1.history_index ≤
      (handleArrowKey st c).1.history.length := by
  unfold handleArrowKey displayHistoryEntry
  split_ifs with h1 h2 h3 <;> simp <;> omega

/-- `handleEscapeSequence` keeps the recall cursor within the history
length. -/
theorem hes_index_le (st : EmState) (c : Byte)
    (h : st.history_index ≤ st.history.length) :
    (handleEscapeSequence st c).2.1.history_index ≤
      (handleEscapeSequence st c).2.1.history.length := by
  unfold handleEscapeSequence
  split_ifs <;> simp <;>
    first
      | exact h
      | exact handleArrowKey_index_le _ _ (by simpa using h)

/-- `handleEnter` keeps the recall cursor within the history length. -/
theorem handleEnter_index_le (st : EmState)
    (h : st.history_index ≤ st.history.length) :
    (handleEnter st).2.1.history_index ≤ (handleEnter st).2.1.history.length := by
  unfold handleEnter
  split_ifs <;> simp <;> omega

/-- `processInput` keeps the recall cursor within the history length. -/
theorem processInput_index_le (st : EmState) (c : Byte)
    (h : st.history_index ≤ st.history.length) :
    (processInput st c).2.1.history_index ≤
      (processInput st c).2.1.history.length := by
  unfold processInput
  split_ifs with h3 h26 h4 h127 hesc henter
  · unfold sendSignalToChild; split_ifs <;> simpa
  · unfold sendSignalToChild; split_ifs <;> simpa
  · simpa
  · unfold handleBackspace; split_ifs <;> simpa
  · simpa using hes_index_le st c h
  · have hf := hes_false_frame st c (by simpa using hesc)
    have h2 : (handleEscapeSequence st c).2.1.history_index ≤
        (handleEscapeSequence st c).2.1.history.length := by
      rw [hf.2.2.1, hf.2.1]; exact h
    simpa using handleEnter_index_le _ h2
  · have hf := hes_false_frame st c (by simpa using hesc)
    simpa [hf.2.2.1, hf.2.1] using h

/-- The per-chunk input loop keeps the recall cursor within the history
length. -/
theorem processBytes_index_le (bytes : List Byte) : ∀ (st : EmState),
    st.history_index ≤ st.history.length →
    (processBytes st bytes).1.history_index ≤
      (processBytes st bytes).1.history.length := by
  induction bytes with
  | nil => intro st h; simpa [processBytes]
  | cons c rest ih =>
    intro st h
    unfold processBytes
    split_ifs with hc
    · simpa using ih _ (processInput_index_le st c h)
    · simpa using processInput_index_le st c h

/-- One step of `handleEscapeSequence` keeps the accumulator among the three
reachable shapes. -/
theorem hes_escOk (st : EmState) (c : Byte) (h : escOk st.escape_sequence) :
    escOk (handleEscapeSequence st c).2.1.escape_sequence := by
  unfold handleEscapeSequence
  rcases h with h | h | h <;> split_ifs <;> simp_all [escOk]

/-- `handleEnter` does not touch the escape accumulator. -/
theorem handleEnter_escape (st : EmState) :
    (handleEnter st).2.1.escape_sequence = st.escape_sequence := by
  unfold handleEnter
  split_ifs <;> simp

/-- On a fully successful startup the destructor runs `cleanup`, so the
terminal is restored exactly once. -/
theorem mainModel_success_restores_once (env : Env)
    (h1 : env.tcgetattr_ok = true) (h2 : env.tcsetattr_ok = true)
    (h3 : env.forkpty_ok = true) :
    (mainModel env).raw_mode_entered = true ∧
    (mainModel env).restore_calls = 1 := by
  unfold mainModel cleanup
  simp [h1, h2, h3]

/-- C1 (amended): processing the Ctrl-C byte (0x03) with a tracked child
forwards SIGINT to the child and leaves the line buffer and history
unchanged, but it also terminates the session: `sendSignalToChild` reaps the
child, resets `child_pid_` and sets `is_running_` to false whenever the
signal is SIGINT. -/
theorem ctrlC_signal_behavior (st : EmState) (h : 0 < st.child_pid) :
    (processInput st 3).2.2.signals = [SIGINT] ∧
    (processInput st 3).2.2.toChild = [] ∧
    (processInput st 3).2.2.toStdout = [] ∧
    (processInput st 3).2.1.input_buffer = st.input_buffer ∧
    (processInput st 3).2.1.history = st.history ∧
    (processInput st 3).2.1.is_running = false ∧
    (processInput st 3).2.1.child_pid = -1 ∧
    (processInput st 3).1 = true := by
  have hn : ¬ st.child_pid ≤ 0 := by omega
  unfold processInput sendSignalToChild
  simp [hn, SIGINT]

/-- C1 counterexample: in a concrete running session with a tracked child,
processing Ctrl-C sets `is_running_` to false — the session does not remain
running as the claim states. -/
theorem ctrlC_session_continues_counterexample :
    c1State.child_pid > 0 ∧ c1State.is_running = true ∧
    (processInput c1State 3).2.1.is_running = false := by decide

/-- C1 witness: the amended Ctrl-C behaviour at a concrete running state. -/
theorem ctrlC_signal_behavior_witness :
    (0 : Int) < c1State.child_pid ∧
    ((processInput c1State 3).2.2.signals = [SIGINT] ∧
     (processInput c1State 3).2.2.toChild = [] ∧
     (processInput c1State 3).2.2.toStdout = [] ∧
     (processInput c1State 3).2.1.input_buffer = c1State.input_buffer ∧
     (processInput c1State 3).2.1.history = c1State.history ∧
     (processInput c1State 3).2.1.is_running = false ∧
     (processInput c1State 3).2.1.child_pid = -1 ∧
     (processInput c1State 3).1 = true) :=
  ⟨by decide, ctrlC_signal_behavior c1State (by decide)⟩

/-- C2: in the environment where raw mode is successfully entered and
`forkpty` then fails, the constructor throws, C++ skips the destructor of the
partially constructed object, and `restoreTerminal` is never called: the run
ends with raw mode entered but zero restore calls, contradicting the
restore-exactly-once claim. -/
theorem restore_skipped_on_forkpty_failure :
    (mainModel c2Env).raw_mode_entered = true ∧
    (mainModel c2Env).restore_calls = 0 ∧
    (mainModel c2Env).exit_code = 1 := by decide

/-- C3 counterexample: with the accumulator holding a single ESC and the next
byte 97 (not a left bracket), the two-byte sequence is written to the PTY
master — it is forwarded to the child, not discarded silently as claimed. -/
theorem csi_abandon_counterexample :
    c3State.escape_sequence = [27] ∧
    (handleEscapeSequence c3State 97).2.2.toChild = [27, 97] ∧
    ¬ (handleEscapeSequence c3State 97).2.2.toChild = [] := by decide

/-- C3 (amended): when the accumulator holds a single ESC and the next byte
is neither a left bracket nor another ESC, the accumulator is cleared but the
two-byte sequence is forwarded to the child (written to the PTY master). -/
theorem csi_malformed_forwarded (st : EmState) (c : Byte)
    (h : st.escape_sequence = [27]) (hb : c ≠ 91) (he : c ≠ 27) :
    handleEscapeSequence st c =
      (true, { st with escape_sequence := [] }, ⟨[27, c], [], []⟩) := by
  unfold handleEscapeSequence
  simp [h, hb, he]

/-- C3 witness: the amended malformed-sequence behaviour at a concrete
state. -/
theorem csi_malformed_forwarded_witness :
    c3State.escape_sequence = [27] ∧ (97 : Byte) ≠ 91 ∧ (97 : Byte) ≠ 27 ∧
    handleEscapeSequence c3State 97 =
      (true, { c3State with escape_sequence := [] }, ⟨[27, 97], [], []⟩) :=
  ⟨by decide, by decide, by decide,
   csi_malformed_forwarded c3State 97 (by decide) (by decide) (by decide)⟩

/-- C4 counterexample: a zero-or-negative read on the terminal input leaves
`is_running_` true in a concrete running state — the main loop does not exit
on end-of-stream, contrary to the claim. -/
theorem eof_shutdown_counterexample :
    c4State.is_running = true ∧
    ¬ ((readUserInput c4State ReadResult.eofOrErr).1.is_running = false) := by
  decide

/-- C4 (amended): a zero-or-negative read makes `readUserInput` return with
the state unchanged and no I/O; the main loop keeps running and simply
proceeds to the next wakeup. -/
theorem eof_read_ignored (st : EmState) (rest : List ReadResult) :
    readUserInput st ReadResult.eofOrErr = (st, Output.empty) ∧
    (st.is_running = true →
      ioLoop st (ReadResult.eofOrErr :: rest) = ioLoop st rest) := by
  refine ⟨rfl, fun h => ?_⟩
  conv_lhs => unfold ioLoop
  simp [h, readUserInput, Output.empty_app]

/-- C4 witness: the end-of-stream wakeup at a concrete running state,
followed by a further wakeup that is still processed. -/
theorem eof_read_ignored_witness :
    readUserInput c4State ReadResult.eofOrErr = (c4State, Output.empty) ∧
    ioLoop c4State [ReadResult.eofOrErr, ReadResult.chunk [97]] =
      ioLoop c4State [ReadResult.chunk [97]] :=
  ⟨(eof_read_ignored c4State []).1,
   (eof_read_ignored c4State [ReadResult.chunk [97]]).2 (by decide)⟩

/-- C5 counterexample: completing `ESC [ A` in a concrete state writes the
3-byte sequence to the PTY master — history recall is not free of forwarding
to the child as claimed. -/
theorem recall_local_counterexample :
    c5State.escape_sequence = [27, 91] ∧
    (processInput c5State 65).2.2.toChild = [27, 91, 65] ∧
    ¬ (processInput c5State 65).2.2.toChild = [] := by decide

/-- C5 (amended): the redisplay performed by `handleArrowKey` /
`displayHistoryEntry` writes only to the local terminal (nothing to the PTY
master, no signal), but `handleEscapeSequence` then forwards the full 3-byte
arrow sequence to the child. -/
theorem recall_redisplay_local_sequence_forwarded (st : EmState) (c : Byte)
    (h : st.escape_sequence = [27, 91]) (hc : c = 65 ∨ c = 66) :
    (handleArrowKey { st with escape_sequence := [27, 91, c] } c).2.toChild
      = [] ∧
    (handleArrowKey { st with escape_sequence := [27, 91, c] } c).2.signals
      = [] ∧
    (processInput st c).2.2.toChild = [27, 91, c] ∧
    (processInput st c).2.2.signals = [] := by
  refine ⟨handleArrowKey_toChild _ _, handleArrowKey_signals _ _, ?_, ?_⟩ <;>
    rcases hc with rfl | rfl <;>
    · unfold processInput handleEscapeSequence
      simp [h, Output.app, handleArrowKey_toChild, handleArrowKey_signals]

/-- C5 witness: the amended recall behaviour at a concrete state with one
history entry. -/
theorem recall_redisplay_local_sequence_forwarded_witness :
    c5State.escape_sequence = [27, 91] ∧
    ((handleArrowKey { c5State with escape_sequence := [27, 91, 65] } 65).2.toChild
       = [] ∧
     (handleArrowKey { c5State with escape_sequence := [27, 91, 65] } 65).2.signals
       = [] ∧
     (processInput c5State 65).2.2.toChild = [27, 91, 65] ∧
     (processInput c5State 65).2.2.signals = []) :=
  ⟨rfl, recall_redisplay_local_sequence_forwarded c5State 65 rfl (Or.inl rfl)⟩

/-- C6: the recall cursor stays within [0, history length] across any input
byte sequence; up-arrow at cursor 0 leaves it at 0; down-arrow never moves it
above the history length; appending on submit resets it to the new length;
and recalling at a cursor below the length sets the line buffer to that
history entry verbatim. -/
theorem history_cursor_invariant :
    (∀ (st : EmState) (bytes : List Byte),
        st.history_index ≤ st.history.length →
        (processBytes st bytes).1.history_index ≤
          (processBytes st bytes).1.history.length) ∧
    (∀ st : EmState, st.history_index = 0 →
        (handleArrowKey st 65).1.history_index = 0) ∧
    (∀ st : EmState, st.history_index ≤ st.history.length →
        (handleArrowKey st 66).1.history_index ≤ st.history.length) ∧
    (∀ st : EmState, st.input_buffer ≠ [] → st.input_buffer ≠ exitBytes →
        (handleEnter st).2.1.history_index =
          (handleEnter st).2.1.history.length) ∧
    (∀ (st : EmState) (hi : st.history_index < st.history.length),
        (displayHistoryEntry st).1.input_buffer =
          st.history.get ⟨st.history_index, hi⟩) := by
  refine ⟨fun st bytes h => processBytes_index_le bytes st h, ?_, ?_, ?_, ?_⟩
  · intro st h0
    unfold handleArrowKey
    simp [h0]
  · intro st h
    unfold handleArrowKey displayHistoryEntry
    split_ifs <;> simp <;> omega
  · intro st hne hnx
    unfold handleEnter
    simp [hnx, hne]
  · intro st hi
    unfold displayHistoryEntry
    simp [List.getD, List.get_eq_getElem, List.getElem?_eq_getElem hi]

/-- C6 witness: the cursor bound applied to a concrete state and a concrete
up-arrow byte sequence. -/
theorem history_cursor_invariant_witness :
    c6State.history_index ≤ c6State.history.length ∧
    (processBytes c6State [27, 91, 65]).1.history_index ≤
      (processBytes c6State [27, 91, 65]).1.history.length :=
  ⟨by decide, history_cursor_invariant.1 c6State [27, 91, 65] (by decide)⟩

/-- C7: submitting (byte 13 or 10, outside an escape sequence) a non-empty
line that is not "exit" appends it to history, sets the cursor to the new
history length, clears the line buffer, and forwards and echoes exactly one
newline; submitting an empty line leaves history unchanged. -/
theorem submit_line_behavior (st : EmState) (c : Byte)
    (hc : c = 13 ∨ c = 10) (hesc : st.escape_sequence = []) :
    (st.input_buffer ≠ [] → st.input_buffer ≠ exitBytes →
      (processInput st c).2.1.history = st.history ++ [st.input_buffer] ∧
      (processInput st c).2.1.history_index =
        (processInput st c).2.1.history.length ∧
      (processInput st c).2.1.input_buffer = [] ∧
      (processInput st c).2.2.toChild = [10] ∧
      (processInput st c).2.2.toStdout = [10] ∧
      (processInput st c).1 = true) ∧
    (st.input_buffer = [] →
      (processInput st c).2.1.history = st.history) := by
  have he : c ≠ 27 := by rcases hc with rfl | rfl <;> decide
  have h1 := hes_empty_acc st c hesc he
  have hd : ¬ (c = 3) ∧ ¬ (c = 26) ∧ ¬ (c = 4) ∧ ¬ (c = 127) := by
    rcases hc with rfl | rfl <;>
      exact ⟨by decide, by decide, by decide, by decide⟩
  constructor
  · intro hne hnx
    unfold processInput
    simp [hd.1, hd.2.1, hd.2.2.1, hd.2.2.2, h1, hc, handleEnter, hnx, hne,
      Output.app, Output.empty]
  · intro hemp
    unfold processInput
    simp [hd.1, hd.2.1, hd.2.2.1, hd.2.2.2, h1, hc, handleEnter, hemp,
      exitBytes, Output.app, Output.empty]

/-- C7 witness: submitting the concrete line "hi" with one prior history
entry. -/
theorem submit_line_behavior_witness :
    (processInput c7State 13).2.1.history =
      c7State.history ++ [c7State.input_buffer] ∧
    (processInput c7State 13).2.1.history_index =
      (processInput c7State 13).2.1.history.length ∧
    (processInput c7State 13).2.1.input_buffer = [] ∧
    (processInput c7State 13).2.2.toChild = [10] ∧
    (processInput c7State 13).2.2.toStdout = [10] ∧
    (processInput c7State 13).1 = true :=
  (submit_line_behavior c7State 13 (Or.inl rfl) rfl).1 (by decide) (by decide)

/-- C8: with the line buffer equal to "exit" and no pending escape sequence,
a carriage return or newline ends the session (`processInput` returns false
and `is_running_` is false) with no bytes forwarded or echoed, no signal, and
history unchanged. -/
theorem exit_line_ends_session (st : EmState) (c : Byte)
    (hc : c = 13 ∨ c = 10) (hesc : st.escape_sequence = [])
    (hbuf : st.input_buffer = exitBytes) :
    (processInput st c).1 = false ∧
    (processInput st c).2.1.is_running = false ∧
    (processInput st c).2.2 = Output.empty ∧
    (processInput st c).2.1.history = st.history := by
  have he : c ≠ 27 := by rcases hc with rfl | rfl <;> decide
  have h1 := hes_empty_acc st c hesc he
  have hd : ¬ (c = 3) ∧ ¬ (c = 26) ∧ ¬ (c = 4) ∧ ¬ (c = 127) := by
    rcases hc with rfl | rfl <;>
      exact ⟨by decide, by decide, by decide, by decide⟩
  unfold processInput
  simp [hd.1, hd.2.1, hd.2.2.1, hd.2.2.2, h1, hc, handleEnter, hbuf,
    Output.app, Output.empty]

/-- C8 witness: the "exit" submission at a concrete state, via carriage
return. -/
theorem exit_line_ends_session_witness :
    (processInput c8State 13).1 = false ∧
    (processInput c8State 13).2.1.is_running = false ∧
    (processInput c8State 13).2.2 = Output.empty ∧
    (processInput c8State 13).2.1.history = c8State.history :=
  exit_line_ends_session c8State 13 (Or.inl rfl) rfl rfl

/-- C9: a byte completing a 3-byte sequence on top of the accumulated
`ESC [` resolves the arrow-key semantics on that final byte, clears the
accumulator and forwards to the child exactly the accumulated 3-byte
sequence. -/
theorem csi_complete_forwarded_identical (st : EmState) (c : Byte)
    (hseq : st.escape_sequence = [27, 91]) (hc : c ≠ 27) :
    handleEscapeSequence st c =
      (true,
       { (handleArrowKey { st with escape_sequence := [27, 91, c] } c).1 with
         escape_sequence := [] },
       Output.app
         (handleArrowKey { st with escape_sequence := [27, 91, c] } c).2
         ⟨[27, 91, c], [], []⟩) := by
  unfold handleEscapeSequence
  simp [hseq, hc]

/-- C9 witness: the completed `ESC [ A` sequence at a concrete state. -/
theorem csi_complete_forwarded_identical_witness :
    c9State.escape_sequence = [27, 91] ∧
    handleEscapeSequence c9State 65 =
      (true,
       { (handleArrowKey { c9State with escape_sequence := [27, 91, 65] } 65).1
           with escape_sequence := [] },
       Output.app
         (handleArrowKey { c9State with escape_sequence := [27, 91, 65] } 65).2
         ⟨[27, 91, 65], [], []⟩) :=
  ⟨rfl, csi_complete_forwarded_identical c9State 65 rfl (by decide)⟩

/-- C10: from any reachable accumulator shape (empty, lone ESC, or ESC plus
left bracket), processing any byte leaves the accumulator in one of those
three shapes, and the control bytes 3, 26, 4 and 127 leave it untouched
because they are dispatched before accumulation. -/
theorem escape_accumulator_invariant (st : EmState) (c : Byte)
    (h : escOk st.escape_sequence) :
    escOk (processInput st c).2.1.escape_sequence ∧
    (c = 3 ∨ c = 26 ∨ c = 4 ∨ c = 127 →
      (processInput st c).2.1.escape_sequence = st.escape_sequence) := by
  constructor
  · unfold processInput
    split_ifs with h3 h26 h4 h127 hesc henter
    · unfold sendSignalToChild; split_ifs <;> simpa using h
    · unfold sendSignalToChild; split_ifs <;> simpa using h
    · simpa using h
    · unfold handleBackspace; split_ifs <;> simpa using h
    · simpa using hes_escOk st c h
    · simpa [handleEnter_escape] using hes_escOk st c h
    · simpa using hes_escOk st c h
  · intro hc
    rcases hc with rfl | rfl | rfl | rfl <;>
      · unfold processInput sendSignalToChild handleBackspace
        split_ifs <;> simp_all

/-- C10 witness: the invariant applied at a concrete state, for an ESC byte
and for Ctrl-C. -/
theorem escape_accumulator_invariant_witness :
    escOk c10State.escape_sequence ∧
    escOk (processInput c10State 27).2.1.escape_sequence ∧
    (processInput c10State 3).2.1.escape_sequence = c10State.escape_sequence :=
  ⟨Or.inl rfl, (escape_accumulator_invariant c10State 27 (Or.inl rfl)).1,
   (escape_accumulator_invariant c10State 3 (Or.inl rfl)).2 (Or.inl rfl)⟩
